import Mathlib

/-
Verification of the caluny backend (user API views and database models)
against its natural-language specification.

The embedding translates:
  * src/caluny/caluny_api/users/views.py  (create_app_user,
    ObtainUserAuthToken.post, UserGCMRegistration.post)
  * src/django/calsite/caluny/models.py   (TeachingSubject, Course)

Parts of the repository that the views import but that are not included in
the sources (core.constants, the Student/Teacher forms, the auth-token
serializer, the GCM device serializer, Django's get_or_create and the
token-creation signal) are modelled from the specification; each such
definition carries a doc comment starting with `Modelled from the spec:`.
-/

namespace Caluny

/-- Modelled from the spec: `core.constants.USER_ROLES` is not under src/;
the spec restricts the role field to the enumerated set {student, teacher}. -/
def USER_ROLES_keys : List String := ["student", "teacher"]

/-- Modelled from the spec: `core.constants.ROLES.student`. -/
def ROLES_student : String := "student"

/-- Modelled from the spec: `core.constants.ROLES.teacher`. -/
def ROLES_teacher : String := "teacher"

/-- A request payload: a finite map from field names to string values,
as produced by `request.POST` or by `json.loads` of a JSON object body. -/
structure Payload where
  fields : List (String × String)
deriving DecidableEq

/-- `data.get(key)`: the first value bound to `key`, if any. -/
def Payload.get (p : Payload) (k : String) : Option String :=
  (p.fields.find? (fun kv => kv.fst == k)).map (fun kv => kv.snd)

/-- The body of `create_app_user`'s incoming request: either it parses into
a JSON object (a `Payload`), or `json.loads` raises `ValueError`. -/
inductive RawBody
  | parsed (p : Payload)
  | malformed
deriving DecidableEq

/-- An incoming HTTP request to `create_app_user`: `post` is
`request.POST` when non-empty (form-encoded data), and `body` is the raw
request body used as a JSON fallback. -/
structure Request where
  post : Option Payload
  body : RawBody
deriving DecidableEq

/-- `data = request.POST if request.POST else json.loads(request.body)`,
returning `none` exactly when `json.loads` raises `ValueError`. -/
def parseData (r : Request) : Option Payload :=
  match r.post with
  | some p => some p
  | none =>
    match r.body with
    | RawBody.parsed p => some p
    | RawBody.malformed => none

/-- An account row (a `core.models.Student` or `core.models.Teacher` row:
a user record with username, stored credential and active flag). -/
structure Account where
  id : Nat
  username : String
  passwordHash : String
  is_active : Bool
deriving DecidableEq

/-- An authentication-token row (`rest_framework.authtoken.models.Token`). -/
structure TokenRow where
  user_id : Nat
  key : String
deriving DecidableEq

/-- A `push_notifications.models.GCMDevice` row. -/
structure GCMDevice where
  user_id : Nat
  registration_id : String
  name : String
  device_id : Option String
  active : Bool
deriving DecidableEq

/-- The persisted state the three endpoints read and write: the
authentication-user table, the usernames carrying a Student row, the
usernames carrying a Teacher row, the token table and the GCM device
table.  `nextId` is the next fresh primary key. -/
structure DB where
  users : List Account
  studentNames : List String
  teacherNames : List String
  tokens : List TokenRow
  devices : List GCMDevice
  nextId : Nat
deriving DecidableEq

/-- A response body. `jsonStr` is `json.dumps` of a plain string,
`jsonErrors` a field-to-message error mapping, `jsonToken` the success body
of `create_app_user`, `jsonTokenRole` the success body of the token
endpoint, and `jsonActiveCreated` the success body of device registration.
`empty` is the body of a bare `HttpResponseBadRequest()`. -/
inductive Body
  | empty
  | jsonStr (s : String)
  | jsonErrors (errs : List (String × String))
  | jsonToken (token : String)
  | jsonTokenRole (token : String) (role : String)
  | jsonActiveCreated (active : Bool) (created : Bool)
deriving DecidableEq

/-- An HTTP response: a status code and a body. -/
structure HttpResp where
  status : Nat
  body : Body
deriving DecidableEq

/-- Modelled from the spec: Django's `set_password` stores the hashed form
of the submitted password.  The hash algorithm lives outside the
repository; it is modelled as an injective tagging function. -/
def hashPassword (p : String) : String := String.append "pbkdf2-sha256$" p

/-- Modelled from the spec: the token key issued for a given user id (the
token-creation signal is not under src/; the spec says account creation
issues an authentication token). -/
def tokenKey (n : Nat) : String := String.append "token-" (toString n)

/-- `Token.objects.get(user_id=uid).key`: the key of the first token row
for `uid`, if any. -/
def tokenGet (tokens : List TokenRow) (uid : Nat) : Option String :=
  (tokens.find? (fun t => t.user_id == uid)).map (fun t => t.key)

/-- Modelled from the spec: `StudentForm` (the forms module is not under
src/).  The spec says remaining fields are validated against role-specific
rules; the form is valid when the username and password fields are present
and non-empty. -/
def studentFormValid (data : Payload) : Bool :=
  match data.get "username", data.get "password" with
  | some u, some p => !(u == "") && !(p == "")
  | _, _ => false

/-- Modelled from the spec: `TeacherForm`, validated like `StudentForm`. -/
def teacherFormValid (data : Payload) : Bool :=
  match data.get "username", data.get "password" with
  | some u, some p => !(u == "") && !(p == "")
  | _, _ => false

/-- Modelled from the spec: `form.errors`, the field-error mapping returned
on validation failure; one message per missing or blank required field. -/
def formErrors (data : Payload) : List (String × String) :=
  (match data.get "username" with
   | some u => if u == "" then [("username", "This field is required.")] else []
   | none => [("username", "This field is required.")])
  ++
  (match data.get "password" with
   | some p => if p == "" then [("password", "This field is required.")] else []
   | none => [("password", "This field is required.")])

/-- `form.instance.save()` after `is_active = True` and `set_password`:
inserts one fresh account row into the student table (when `isStudent`)
or the teacher table, and one fresh token row (the token signal, modelled
from the spec).  Returns the new account and token with the new state. -/
def formSave (db : DB) (data : Payload) (isStudent : Bool) :
    Account × TokenRow × DB :=
  let acct : Account :=
    { id := db.nextId
      username := (data.get "username").getD ""
      passwordHash := hashPassword ((data.get "password").getD "")
      is_active := true }
  let tok : TokenRow := { user_id := acct.id, key := tokenKey acct.id }
  (acct, tok,
    { users := acct :: db.users
      studentNames :=
        if isStudent then acct.username :: db.studentNames else db.studentNames
      teacherNames :=
        if isStudent then db.teacherNames else acct.username :: db.teacherNames
      tokens := tok :: db.tokens
      devices := db.devices
      nextId := db.nextId + 1 })

/-- The 400 response carrying `json.dumps('Role not supported')`. -/
def badRoleResp : HttpResp := { status := 400, body := Body.jsonStr "Role not supported" }

/-- The branch of `create_app_user` after a payload has been obtained:
role check, role-specific form validation, then save and token lookup. -/
def create_app_user_data (data : Payload) (db : DB) : HttpResp × DB :=
  match data.get "role" with
  | none => (badRoleResp, db)
  | some role =>
    if role == "" || !(USER_ROLES_keys.contains role) then (badRoleResp, db)
    else
      let isStudent := role == ROLES_student
      let valid := if isStudent then studentFormValid data else teacherFormValid data
      if valid then
        let (acct, _, db') := formSave db data isStudent
        match tokenGet db'.tokens acct.id with
        | some k => ({ status := 200, body := Body.jsonToken k }, db')
        | none => ({ status := 500, body := Body.empty }, db')
      else
        ({ status := 400, body := Body.jsonErrors (formErrors data) }, db)

/-- The `create_app_user` view: extract the payload (form data, else JSON
body; a `ValueError` yields a bare `HttpResponseBadRequest()`), then
handle it. -/
def create_app_user (r : Request) (db : DB) : HttpResp × DB :=
  match parseData r with
  | none => ({ status := 400, body := Body.empty }, db)
  | some data => create_app_user_data data db

/-- Modelled from the spec: the token endpoint's credential serializer
(`AuthTokenSerializer`, not under src/) validates username/password against
the stored accounts; it succeeds exactly when an active account with that
username stores the hashed form of the submitted password, yielding
`serializer.object['user']`. -/
def authenticate (db : DB) (u p : String) : Option Account :=
  db.users.find?
    (fun a => a.username == u && a.passwordHash == hashPassword p && a.is_active)

/-- `Teacher.objects.filter(username=u).exists()`. -/
def teacherExists (db : DB) (u : String) : Bool :=
  db.teacherNames.any (fun n => n == u)

/-- `Student.objects.filter(username=u).exists()`. -/
def studentExists (db : DB) (u : String) : Bool :=
  db.studentNames.any (fun n => n == u)

/-- `ObtainUserAuthToken.post`: validate credentials; on success resolve
the role (teacher membership checked before student membership, else the
initial empty string) and return the existing token with the role; on
failure return the serializer errors with status 400. -/
def ObtainUserAuthToken_post (db : DB) (u p : String) : HttpResp :=
  match authenticate db u p with
  | none =>
    { status := 400
      body := Body.jsonErrors
        [("non_field_errors", "Unable to log in with provided credentials.")] }
  | some user =>
    let role :=
      if teacherExists db user.username then ROLES_teacher
      else if studentExists db user.username then ROLES_student
      else ""
    match tokenGet db.tokens user.id with
    | some k => { status := 200, body := Body.jsonTokenRole k role }
    | none => { status := 500, body := Body.empty }

/-- The role field of a token-endpoint success body, if present. -/
def HttpResp.roleOf (r : HttpResp) : Option String :=
  match r.body with
  | Body.jsonTokenRole _ role => some role
  | _ => none

/-- Python's `x or None` applied to an optional string field: a falsy
value (absent field or empty string) becomes `None`. -/
def orNone (s : Option String) : Option String :=
  match s with
  | none => none
  | some v => if v == "" then none else some v

/-- Modelled from the spec: Django's `get_or_create` keyed on
`(user, registration_id)`: return the first matching row with
`created=false`, or insert a new row built from the key and the defaults
(device name, normalised device id, default-active) with `created=true`. -/
def gcm_get_or_create (db : DB) (uid : Nat) (reg : String)
    (defName : String) (defDeviceId : Option String) :
    (GCMDevice × Bool) × DB :=
  match db.devices.find? (fun d => d.user_id == uid && d.registration_id == reg) with
  | some d => ((d, false), db)
  | none =>
    let d : GCMDevice :=
      { user_id := uid
        registration_id := reg
        name := defName
        device_id := defDeviceId
        active := true }
    ((d, true),
      { users := db.users
        studentNames := db.studentNames
        teacherNames := db.teacherNames
        tokens := db.tokens
        devices := d :: db.devices
        nextId := db.nextId })

/-- `UserGCMRegistration.post` for the authenticated `user`.  The GCM
serializer is modelled from the spec (it is not under src/): it requires
the registration id and passes an optional device id through.  On success
performs the get-or-create with defaults
`name = username + " device"` and `device_id = submitted or None`. -/
def UserGCMRegistration_post (db : DB) (user : Account)
    (reg : Option String) (did : Option String) : HttpResp × DB :=
  match reg with
  | none =>
    ({ status := 400
       body := Body.jsonErrors [("registration_id", "This field is required.")] },
     db)
  | some r =>
    let ((d, created), db') :=
      gcm_get_or_create db user.id r
        (String.append user.username " device") (orNone did)
    ({ status := 200, body := Body.jsonActiveCreated d.active created }, db')

/-- A `TeachingSubject` row (src/django/calsite/caluny/models.py): address
and course are nullable, `subject` is a `OneToOneField(Subject)` and hence
unique across rows. -/
structure TeachingSubject where
  id : Nat
  address : Option String
  course_id : Option Nat
  subject_id : Nat
deriving DecidableEq

/-- Creating a `TeachingSubject`: the one-to-one field on `subject` makes
the database reject a row whose `subject_id` is already taken (a unique
constraint violation), in which case the stored state is unchanged and the
error is raised to the caller; otherwise the row is appended. -/
def createTeachingSubject (ts : List TeachingSubject) (t : TeachingSubject) :
    Except String (List TeachingSubject) :=
  if ts.any (fun u => u.subject_id == t.subject_id) then
    Except.error "UNIQUE constraint failed: caluny_teachingsubject.subject_id"
  else
    Except.ok (ts ++ [t])

/-- The reachable `TeachingSubject` table states: empty initially, grown
by successful creates, shrunk by deletes (the standard persistence
operations of the spec's lifecycle section). -/
inductive ReachableTS : List TeachingSubject → Prop
  | init : ReachableTS []
  | create (ts : List TeachingSubject) (t : TeachingSubject)
      (ts' : List TeachingSubject) :
      ReachableTS ts → createTeachingSubject ts t = Except.ok ts' →
      ReachableTS ts'
  | delete (ts : List TeachingSubject) (i : Nat) :
      ReachableTS ts → ReachableTS (ts.filter (fun u => !(u.id == i)))

/-- A raw `Course` row (src/django/calsite/caluny/models.py), every column
held as optional so that nullability is a checked property rather than a
typing artefact.  Foreign keys are stored as row ids. -/
structure CourseRow where
  label_id : Option Nat
  language : Option String
  first_semester_start : Option Nat
  first_semester_end : Option Nat
  second_semester_start : Option Nat
  second_semester_end : Option Nat
  level_id : Option Nat
  degree_id : Option Nat
deriving DecidableEq

/-- Column-level validity of a `Course` row, transcribed from the model
declaration: `label` and `degree` are non-nullable; `language`, the four
semester-date fields and `level` are declared `null=True`. -/
def CourseRow.rowValid (c : CourseRow) : Bool :=
  c.label_id.isSome && c.degree_id.isSome

/-- A sample valid student-creation payload. -/
def samplePayload : Payload :=
  { fields := [("role", "student"), ("username", "ana"), ("password", "pw1")] }

/-- A sample payload whose role field is absent. -/
def noRolePayload : Payload :=
  { fields := [("username", "ana"), ("password", "pw1")] }

/-- The empty database state. -/
def emptyDB : DB :=
  { users := [], studentNames := [], teacherNames := [], tokens := [],
    devices := [], nextId := 0 }

/-- A sample account used by witnesses of the device-registration and
token-endpoint claims. -/
def sampleUser : Account :=
  { id := 7, username := "ana", passwordHash := hashPassword "pw1", is_active := true }

/-- A database holding `sampleUser` as a student together with its token. -/
def sampleDB : DB :=
  { users := [sampleUser]
    studentNames := ["ana"]
    teacherNames := []
    tokens := [{ user_id := 7, key := tokenKey 7 }]
    devices := []
    nextId := 8 }

/-- A database where `sampleUser` can authenticate but carries neither a
Student nor a Teacher row. -/
def plainUserDB : DB :=
  { users := [sampleUser]
    studentNames := []
    teacherNames := []
    tokens := [{ user_id := 7, key := tokenKey 7 }]
    devices := []
    nextId := 8 }

/-- A database where the username "ana" carries both a Teacher row and a
Student row. -/
def dualRoleDB : DB :=
  { users := [sampleUser]
    studentNames := ["ana"]
    teacherNames := ["ana"]
    tokens := [{ user_id := 7, key := tokenKey 7 }]
    devices := []
    nextId := 8 }

/-- A descriptive error payload in the sense of the spec's error taxonomy:
a plain string message or a non-empty field-error mapping. -/
def Body.descriptive : Body → Bool
  | Body.jsonStr _ => true
  | Body.jsonErrors errs => !errs.isEmpty
  | _ => false

/-- A sample `TeachingSubject` row. -/
def sampleTS : TeachingSubject :=
  { id := 1, address := none, course_id := none, subject_id := 5 }

/-- A sample payload carrying an unsupported role value. -/
def alienRolePayload : Payload := { fields := [("role", "alien")] }

/-- A sample payload with a supported role but no other field. -/
def roleOnlyPayload : Payload := { fields := [("role", "student")] }

/-- C1: a request payload that is missing the `role` field, or whose role
value lies outside {student, teacher}, makes `create_app_user` return the
400 response carrying the unsupported-role message, and leaves the
database unchanged (no account is created). -/
theorem create_app_user_unsupported_role (r : Request) (db : DB) (data : Payload)
    (hparse : parseData r = some data)
    (hbad : data.get "role" = none ∨
      ∀ role, data.get "role" = some role → role ∉ USER_ROLES_keys) :
    create_app_user r db =
      ({ status := 400, body := Body.jsonStr "Role not supported" }, db) := by
  rcases hbad with h | h
  · simp [create_app_user, hparse, create_app_user_data, h, badRoleResp]
  · cases hrole : data.get "role" with
    | none => simp [create_app_user, hparse, create_app_user_data, hrole, badRoleResp]
    | some role =>
      have hmem := h role hrole
      simp [create_app_user, hparse, create_app_user_data, hrole, badRoleResp]
      exact fun _ hin => absurd hin hmem

/-- Witness for C1 at a concrete payload with no `role` field. -/
theorem create_app_user_unsupported_role_witness :
    create_app_user { post := some noRolePayload, body := RawBody.malformed } emptyDB =
      ({ status := 400, body := Body.jsonStr "Role not supported" }, emptyDB) :=
  create_app_user_unsupported_role _ emptyDB noRolePayload rfl (Or.inl rfl)

/-- C2: for every valid student payload, `create_app_user` persists exactly
one new account, linked to a new Student row for its username, with the
active flag true and the hashed form of the submitted password as stored
credential, plus one token belonging to that account, and returns that
token. -/
theorem create_app_user_valid_student (r : Request) (db : DB) (data : Payload)
    (pwd : String)
    (hparse : parseData r = some data)
    (hrole : data.get "role" = some "student")
    (hvalid : studentFormValid data = true)
    (hpwd : data.get "password" = some pwd) :
    ∃ acct tok,
      (create_app_user r db).2 =
        { users := acct :: db.users
          studentNames := acct.username :: db.studentNames
          teacherNames := db.teacherNames
          tokens := tok :: db.tokens
          devices := db.devices
          nextId := db.nextId + 1 } ∧
      acct.is_active = true ∧
      acct.passwordHash = hashPassword pwd ∧
      tok.user_id = acct.id ∧
      (create_app_user r db).1 = { status := 200, body := Body.jsonToken tok.key } := by
  refine ⟨{ id := db.nextId
            username := (data.get "username").getD ""
            passwordHash := hashPassword pwd
            is_active := true },
          { user_id := db.nextId, key := tokenKey db.nextId }, ?_, rfl, rfl, rfl, ?_⟩ <;>
    simp [create_app_user, hparse, create_app_user_data, hrole, USER_ROLES_keys,
      ROLES_student, hvalid, formSave, hpwd, tokenGet]

/-- Witness for C2 at the sample student payload over the empty database. -/
theorem create_app_user_valid_student_witness :
    ∃ acct tok,
      (create_app_user { post := some samplePayload, body := RawBody.malformed }
          emptyDB).2 =
        { users := acct :: emptyDB.users
          studentNames := acct.username :: emptyDB.studentNames
          teacherNames := emptyDB.teacherNames
          tokens := tok :: emptyDB.tokens
          devices := emptyDB.devices
          nextId := emptyDB.nextId + 1 } ∧
      acct.is_active = true ∧
      acct.passwordHash = hashPassword "pw1" ∧
      tok.user_id = acct.id ∧
      (create_app_user { post := some samplePayload, body := RawBody.malformed }
          emptyDB).1 =
        { status := 200, body := Body.jsonToken tok.key } :=
  create_app_user_valid_student _ emptyDB samplePayload "pw1" rfl rfl (by decide) rfl

/-- C3: on valid credentials the token endpoint resolves the role by
checking Teacher membership before Student membership: a username in the
Teacher set yields role "teacher" (even when a Student row with the same
username exists, since the quantification covers such states), and the
role is "student" exactly when the username is in the Student set and not
in the Teacher set. -/
theorem obtain_token_role_precedence (db : DB) (u p : String) (user : Account)
    (k : String)
    (hauth : authenticate db u p = some user)
    (htok : tokenGet db.tokens user.id = some k) :
    (ObtainUserAuthToken_post db u p).status = 200 ∧
    (teacherExists db user.username = true →
      (ObtainUserAuthToken_post db u p).roleOf = some "teacher") ∧
    ((ObtainUserAuthToken_post db u p).roleOf = some "student" ↔
      studentExists db user.username = true ∧
        teacherExists db user.username = false) := by
  cases ht : teacherExists db user.username <;>
    cases hs : studentExists db user.username <;>
      simp [ObtainUserAuthToken_post, hauth, htok, ht, hs, HttpResp.roleOf,
        ROLES_teacher, ROLES_student]

/-- Witness for C3 over the database where "ana" has both a Teacher and a
Student row. -/
theorem obtain_token_role_precedence_witness :
    (ObtainUserAuthToken_post dualRoleDB "ana" "pw1").status = 200 ∧
    (teacherExists dualRoleDB sampleUser.username = true →
      (ObtainUserAuthToken_post dualRoleDB "ana" "pw1").roleOf = some "teacher") ∧
    ((ObtainUserAuthToken_post dualRoleDB "ana" "pw1").roleOf = some "student" ↔
      studentExists dualRoleDB sampleUser.username = true ∧
        teacherExists dualRoleDB sampleUser.username = false) :=
  obtain_token_role_precedence dualRoleDB "ana" "pw1" sampleUser (tokenKey 7)
    (by decide) (by decide)

/-- C9: on valid credentials for a user in neither the Teacher set nor the
Student set, the token endpoint still succeeds and returns the empty
string as the role. -/
theorem obtain_token_empty_role (db : DB) (u p : String) (user : Account)
    (k : String)
    (hauth : authenticate db u p = some user)
    (htok : tokenGet db.tokens user.id = some k)
    (ht : teacherExists db user.username = false)
    (hs : studentExists db user.username = false) :
    (ObtainUserAuthToken_post db u p).status = 200 ∧
    (ObtainUserAuthToken_post db u p).roleOf = some "" := by
  simp [ObtainUserAuthToken_post, hauth, htok, ht, hs, HttpResp.roleOf]

/-- Witness for C9 over the database where "ana" has neither role row. -/
theorem obtain_token_empty_role_witness :
    (ObtainUserAuthToken_post plainUserDB "ana" "pw1").status = 200 ∧
    (ObtainUserAuthToken_post plainUserDB "ana" "pw1").roleOf = some "" :=
  obtain_token_empty_role plainUserDB "ana" "pw1" sampleUser (tokenKey 7)
    (by decide) (by decide) (by decide) (by decide)

/-- C4: registering a (user, registration id) pair that has no device row
yet returns `created=true`; registering the same pair again returns
`created=false` and leaves the whole database, hence the device record and
the name set on the first call, unchanged. -/
theorem gcm_register_twice (db : DB) (user : Account) (reg : String)
    (did1 did2 : Option String)
    (hfresh : db.devices.find?
      (fun d => d.user_id == user.id && d.registration_id == reg) = none) :
    ∃ d,
      (UserGCMRegistration_post db user (some reg) did1).1 =
        { status := 200, body := Body.jsonActiveCreated d.active true } ∧
      (UserGCMRegistration_post db user (some reg) did1).2.devices =
        d :: db.devices ∧
      d.name = String.append user.username " device" ∧
      UserGCMRegistration_post
          (UserGCMRegistration_post db user (some reg) did1).2 user (some reg) did2 =
        ({ status := 200, body := Body.jsonActiveCreated d.active false },
         (UserGCMRegistration_post db user (some reg) did1).2) := by
  refine ⟨{ user_id := user.id
            registration_id := reg
            name := String.append user.username " device"
            device_id := orNone did1
            active := true }, ?_, ?_, rfl, ?_⟩ <;>
    simp [UserGCMRegistration_post, gcm_get_or_create, hfresh, List.find?]

/-- Witness for C4: registering twice on the sample database. -/
theorem gcm_register_twice_witness :
    ∃ d,
      (UserGCMRegistration_post sampleDB sampleUser (some "regid-1") (some "dev1")).1 =
        { status := 200, body := Body.jsonActiveCreated d.active true } ∧
      (UserGCMRegistration_post sampleDB sampleUser (some "regid-1")
          (some "dev1")).2.devices = d :: sampleDB.devices ∧
      d.name = String.append sampleUser.username " device" ∧
      UserGCMRegistration_post
          (UserGCMRegistration_post sampleDB sampleUser (some "regid-1")
            (some "dev1")).2 sampleUser (some "regid-1") none =
        ({ status := 200, body := Body.jsonActiveCreated d.active false },
         (UserGCMRegistration_post sampleDB sampleUser (some "regid-1")
           (some "dev1")).2) :=
  gcm_register_twice sampleDB sampleUser "regid-1" (some "dev1") none rfl

/-- C10: a first-time device registration submitting a falsy device id
(the empty string) stores the device with a null device id. -/
theorem gcm_falsy_device_id (db : DB) (user : Account) (reg : String)
    (hfresh : db.devices.find?
      (fun d => d.user_id == user.id && d.registration_id == reg) = none) :
    ∃ d,
      (UserGCMRegistration_post db user (some reg) (some "")).2.devices =
        d :: db.devices ∧
      d.device_id = none := by
  refine ⟨{ user_id := user.id
            registration_id := reg
            name := String.append user.username " device"
            device_id := none
            active := true }, ?_, rfl⟩
  simp [UserGCMRegistration_post, gcm_get_or_create, hfresh, orNone]

/-- Witness for C10 on the sample database. -/
theorem gcm_falsy_device_id_witness :
    ∃ d,
      (UserGCMRegistration_post sampleDB sampleUser (some "regid-1")
          (some "")).2.devices = d :: sampleDB.devices ∧
      d.device_id = none :=
  gcm_falsy_device_id sampleDB sampleUser "regid-1" rfl

/-- Any reachable `TeachingSubject` table has pairwise-distinct subject
ids (helper for the one-to-one invariant). -/
theorem reachableTS_pairwise (ts : List TeachingSubject) (h : ReachableTS ts) :
    ts.Pairwise (fun a b => a.subject_id ≠ b.subject_id) := by
  induction h with
  | init => exact List.Pairwise.nil
  | create ts t ts' _ hok ih =>
    unfold createTeachingSubject at hok
    by_cases hany : ts.any (fun u => u.subject_id == t.subject_id) = true
    · rw [if_pos hany] at hok
      exact Except.noConfusion hok
    · rw [if_neg hany, Except.ok.injEq] at hok
      subst hok
      rw [List.pairwise_append]
      refine ⟨ih, by simp, ?_⟩
      intro a ha b hb
      rw [List.mem_singleton] at hb
      subst hb
      intro hEq
      rw [List.any_eq_true] at hany
      exact hany ⟨a, ha, by simpa using hEq⟩
  | delete ts i _ ih => exact List.Pairwise.sublist (List.filter_sublist _) ih

/-- C5: in every reachable database state each Subject has at most one
TeachingSubject (the table carries pairwise-distinct subject ids), and an
attempt to create a second TeachingSubject for an already-used Subject
reports the unique-constraint error, in which case no new state is
produced. -/
theorem teachingSubject_one_to_one (ts : List TeachingSubject)
    (h : ReachableTS ts) :
    ts.Pairwise (fun a b => a.subject_id ≠ b.subject_id) ∧
    ∀ t, t ∈ ts → ∀ t', t'.subject_id = t.subject_id →
      createTeachingSubject ts t' =
        Except.error "UNIQUE constraint failed: caluny_teachingsubject.subject_id" := by
  refine ⟨reachableTS_pairwise ts h, ?_⟩
  intro t hmem t' heq
  unfold createTeachingSubject
  have hany : ts.any (fun u => u.subject_id == t'.subject_id) = true := by
    rw [List.any_eq_true]
    exact ⟨t, hmem, by simp [heq]⟩
  simp [hany]

/-- Witness for C5 on the one-row reachable table holding `sampleTS`. -/
theorem teachingSubject_one_to_one_witness :
    [sampleTS].Pairwise (fun a b => a.subject_id ≠ b.subject_id) ∧
    ∀ t, t ∈ [sampleTS] → ∀ t', t'.subject_id = t.subject_id →
      createTeachingSubject [sampleTS] t' =
        Except.error "UNIQUE constraint failed: caluny_teachingsubject.subject_id" :=
  teachingSubject_one_to_one [sampleTS]
    (ReachableTS.create [] sampleTS [sampleTS] ReachableTS.init rfl)

/-- C8: the four semester-date columns of a `Course` row are optional and
independently nullable: for every subset of them set to null (all sixteen
combinations, ranged over by the four booleans), the row stays
column-valid. -/
theorem course_semester_dates_nullable (b1 b2 b3 b4 : Bool) :
    CourseRow.rowValid
      { label_id := some 1
        language := some "es"
        first_semester_start := if b1 then none else some 2
        first_semester_end := if b2 then none else some 3
        second_semester_start := if b3 then none else some 4
        second_semester_end := if b4 then none else some 5
        level_id := some 6
        degree_id := some 7 } = true := rfl

/-- C6 counterexample: the request whose body does not parse as JSON is an
erroneous request (malformed body class), yet `create_app_user` answers it
with a 400 response whose body is empty, not a descriptive error
payload. -/
theorem create_app_user_malformed_empty_body :
    create_app_user { post := none, body := RawBody.malformed } emptyDB =
      ({ status := 400, body := Body.empty }, emptyDB) ∧
    Body.descriptive Body.empty = false :=
  ⟨rfl, rfl⟩

/-- The two role-specific forms validate by the same rules (helper). -/
theorem teacherFormValid_eq (data : Payload) :
    teacherFormValid data = studentFormValid data := rfl

/-- A form that fails validation produces at least one field error
(helper). -/
theorem formErrors_nonempty (data : Payload)
    (h : studentFormValid data = false) :
    (formErrors data).isEmpty = false := by
  unfold studentFormValid at h
  unfold formErrors
  cases hu : data.get "username" with
  | none => simp
  | some u =>
    cases hp : data.get "password" with
    | none => simp [hu]
    | some p =>
      rw [hu, hp] at h
      by_cases hu0 : (u == "") = true
      · simp [hu0]
      · have hp0 : (p == "") = true := by
          rcases Bool.and_eq_false_iff.mp h with h' | h'
          · exact absurd (by simpa using h') hu0
          · simpa using h'
        simp [hp0]

/-- C6 (amended): every erroneous request of the spec's four error classes
gets a synchronous 400 response; unsupported-role, validation-error and
authentication-failure responses carry a descriptive body (a string or a
non-empty field mapping), while the malformed-body response carries an
empty body. -/
theorem error_responses_are_400 :
    (∀ r db, parseData r = none →
      create_app_user r db = ({ status := 400, body := Body.empty }, db)) ∧
    (∀ r db data, parseData r = some data →
      (data.get "role" = none ∨
        ∀ role, data.get "role" = some role → role ∉ USER_ROLES_keys) →
      (create_app_user r db).1.status = 400 ∧
      (create_app_user r db).1.body.descriptive = true) ∧
    (∀ r db data role, parseData r = some data →
      data.get "role" = some role → role ∈ USER_ROLES_keys →
      studentFormValid data = false → teacherFormValid data = false →
      (create_app_user r db).1.status = 400 ∧
      (create_app_user r db).1.body.descriptive = true) ∧
    (∀ db u p, authenticate db u p = none →
      (ObtainUserAuthToken_post db u p).status = 400 ∧
      (ObtainUserAuthToken_post db u p).body.descriptive = true) ∧
    (∀ db user did,
      (UserGCMRegistration_post db user none did).1.status = 400 ∧
      (UserGCMRegistration_post db user none did).1.body.descriptive = true) := by
  refine ⟨?_, ?_, ?_, ?_, ?_⟩
  · intro r db hp
    simp [create_app_user, hp]
  · intro r db data hp hbad
    rcases hbad with h | h
    · simp [create_app_user, hp, create_app_user_data, h, badRoleResp,
        Body.descriptive]
    · cases hrole : data.get "role" with
      | none =>
        simp [create_app_user, hp, create_app_user_data, hrole, badRoleResp,
          Body.descriptive]
      | some role =>
        have hmem := h role hrole
        simp [create_app_user, hp, create_app_user_data, hrole, hmem, badRoleResp,
          Body.descriptive]
  · intro r db data role hp hrole hmem hsv htv
    have hor : role = "student" ∨ role = "teacher" := by
      simpa [USER_ROLES_keys] using hmem
    have hne : (formErrors data).isEmpty = false := formErrors_nonempty data hsv
    rcases hor with h | h <;> subst h <;>
      simp [create_app_user, hp, create_app_user_data, hrole, USER_ROLES_keys,
        ROLES_student, hsv, htv, Body.descriptive, hne]
  · intro db u p hauth
    simp [ObtainUserAuthToken_post, hauth, Body.descriptive]
  · intro db user did
    simp [UserGCMRegistration_post, Body.descriptive]

/-- Witness for C6 (amended): each error class exercised at a concrete
input. -/
theorem error_responses_are_400_witness :
    create_app_user { post := none, body := RawBody.malformed } emptyDB =
      ({ status := 400, body := Body.empty }, emptyDB) ∧
    ((create_app_user { post := some alienRolePayload, body := RawBody.malformed }
        emptyDB).1.status = 400 ∧
      (create_app_user { post := some alienRolePayload, body := RawBody.malformed }
        emptyDB).1.body.descriptive = true) ∧
    ((create_app_user { post := some roleOnlyPayload, body := RawBody.malformed }
        emptyDB).1.status = 400 ∧
      (create_app_user { post := some roleOnlyPayload, body := RawBody.malformed }
        emptyDB).1.body.descriptive = true) ∧
    ((ObtainUserAuthToken_post emptyDB "ana" "pw1").status = 400 ∧
      (ObtainUserAuthToken_post emptyDB "ana" "pw1").body.descriptive = true) ∧
    ((UserGCMRegistration_post emptyDB sampleUser none none).1.status = 400 ∧
      (UserGCMRegistration_post emptyDB sampleUser none none).1.body.descriptive
        = true) :=
  ⟨error_responses_are_400.1 _ emptyDB rfl,
   error_responses_are_400.2.1 _ emptyDB alienRolePayload rfl
     (Or.inr (by decide)),
   error_responses_are_400.2.2.1 _ emptyDB roleOnlyPayload "student" rfl rfl
     (by decide) rfl rfl,
   error_responses_are_400.2.2.2.1 emptyDB "ana" "pw1" rfl,
   error_responses_are_400.2.2.2.2 emptyDB sampleUser none⟩

/-- C7: a successful `create_app_user` call changes the database only by
inserting exactly one account row (together with that account's own role
link) and exactly one token row; the device table, the opposite role
table and every pre-existing row are untouched. -/
theorem create_app_user_frame (r : Request) (db : DB)
    (h200 : (create_app_user r db).1.status = 200) :
    ∃ acct tok,
      (create_app_user r db).2.users = acct :: db.users ∧
      (create_app_user r db).2.tokens = tok :: db.tokens ∧
      (create_app_user r db).2.devices = db.devices ∧
      ((create_app_user r db).2.studentNames = acct.username :: db.studentNames ∧
         (create_app_user r db).2.teacherNames = db.teacherNames ∨
       (create_app_user r db).2.teacherNames = acct.username :: db.teacherNames ∧
         (create_app_user r db).2.studentNames = db.studentNames) := by
  cases hp : parseData r with
  | none => simp [create_app_user, hp] at h200
  | some data =>
    cases hrole : data.get "role" with
    | none =>
      simp [create_app_user, hp, create_app_user_data, hrole, badRoleResp] at h200
    | some role =>
      by_cases hbad : role = "" ∨ role ∉ USER_ROLES_keys
      · simp [create_app_user, hp, create_app_user_data, hrole, hbad,
          badRoleResp] at h200
      · cases hstu : (role == ROLES_student) with
        | true =>
          cases hv : studentFormValid data with
          | false =>
            simp [create_app_user, hp, create_app_user_data, hrole, hbad, hstu,
              hv] at h200
          | true =>
            refine ⟨{ id := db.nextId
                      username := (data.get "username").getD ""
                      passwordHash := hashPassword ((data.get "password").getD "")
                      is_active := true },
                    { user_id := db.nextId, key := tokenKey db.nextId },
                    ?_, ?_, ?_, Or.inl ⟨?_, ?_⟩⟩ <;>
              simp [create_app_user, hp, create_app_user_data, hrole, hbad,
                hstu, hv, formSave, tokenGet]
        | false =>
          cases hv : teacherFormValid data with
          | false =>
            simp [create_app_user, hp, create_app_user_data, hrole, hbad, hstu,
              hv] at h200
          | true =>
            refine ⟨{ id := db.nextId
                      username := (data.get "username").getD ""
                      passwordHash := hashPassword ((data.get "password").getD "")
                      is_active := true },
                    { user_id := db.nextId, key := tokenKey db.nextId },
                    ?_, ?_, ?_, Or.inr ⟨?_, ?_⟩⟩ <;>
              simp [create_app_user, hp, create_app_user_data, hrole, hbad,
                hstu, hv, formSave, tokenGet]

/-- Witness for C7 at the sample student payload over the empty
database. -/
theorem create_app_user_frame_witness :
    ∃ acct tok,
      (create_app_user { post := some samplePayload, body := RawBody.malformed }
          emptyDB).2.users = acct :: emptyDB.users ∧
      (create_app_user { post := some samplePayload, body := RawBody.malformed }
          emptyDB).2.tokens = tok :: emptyDB.tokens ∧
      (create_app_user { post := some samplePayload, body := RawBody.malformed }
          emptyDB).2.devices = emptyDB.devices ∧
      ((create_app_user { post := some samplePayload, body := RawBody.malformed }
            emptyDB).2.studentNames = acct.username :: emptyDB.studentNames ∧
         (create_app_user { post := some samplePayload, body := RawBody.malformed }
            emptyDB).2.teacherNames = emptyDB.teacherNames ∨
       (create_app_user { post := some samplePayload, body := RawBody.malformed }
            emptyDB).2.teacherNames = acct.username :: emptyDB.teacherNames ∧
         (create_app_user { post := some samplePayload, body := RawBody.malformed }
            emptyDB).2.studentNames = emptyDB.studentNames) :=
  create_app_user_frame { post := some samplePayload, body := RawBody.malformed }
    emptyDB (by decide)

end Caluny
